import Mathlib

/-!
Shallow embedding of the differential-privacy accounting engine of
`secret-data-tools` (packages/differential-privacy/src/{random,laplace,stats,
running_stats_store}.rs) and verification of its specification claims.

Conventions of the embedding:
* Fixed-point numbers are represented by their raw integer value:
  an `I32F32` value v is the integer `v * 2^32` (8 bytes, two's complement),
  an `I64F64` value v is the integer `v * 2^64` (16 bytes, two's complement).
* Arithmetic follows the release-build semantics of the `substrate_fixed`
  operators: plain `+`, `-`, `*` wrap on overflow, `checked_add` returns
  `none` on overflow, division and the checked `from_num` conversions
  panic (modelled as `none` / `Err.trap`) on a zero divisor or an
  unrepresentable result.
* The byte-keyed storage is an association list of byte strings; the
  per-instance lazily populated `Mutex<Option<_>>` field cache of
  `RunningStatsStore` is an explicit `Cache` record threaded through calls.
* A Rust panic (a wasm trap aborting the call) is the distinguished error
  `Err.trap`; `StdError::generic_err` payloads keep their source message.
* The transcendental `ln` of the external `substrate_fixed` crate is a
  parameter `lnf : Int → Option Int` of every definition that draws noise;
  per the library contract it returns `none` exactly on non-positive input.
-/

set_option maxRecDepth 100000

/-! ### Byte-keyed storage (cosmwasm `Storage`: `get`/`set`) -/

abbrev Bytes := List Nat

abbrev KVStorage := List (Bytes × Bytes)

def sget (s : KVStorage) (k : Bytes) : Option Bytes :=
  match s with
  | [] => none
  | (k', v) :: rest => if k' = k then some v else sget rest k

def sset (s : KVStorage) (k : Bytes) (v : Bytes) : KVStorage :=
  match s with
  | [] => [(k, v)]
  | (k', v') :: rest => if k' = k then (k, v) :: rest else (k', v') :: sset rest k v

theorem sget_sset_self (s : KVStorage) (k v : Bytes) :
    sget (sset s k v) k = some v := by
  induction s with
  | nil => simp [sset, sget]
  | cons hd tl ih =>
    obtain ⟨k', v'⟩ := hd
    by_cases h : k' = k <;> simp [sset, sget, h, ih]

theorem sget_sset_ne (s : KVStorage) (k k' v : Bytes) (h : k' ≠ k) :
    sget (sset s k v) k' = sget s k' := by
  have hk : k ≠ k' := fun hh => h hh.symm
  induction s with
  | nil => simp [sset, sget, hk]
  | cons hd tl ih =>
    obtain ⟨k0, v0⟩ := hd
    by_cases h0 : k0 = k
    · subst h0
      simp [sset, sget, hk]
    · by_cases h1 : k0 = k' <;> simp [sset, sget, h0, h1, h, ih]

/-! ### Big-endian fixed-width encodings -/

def beBytes : Nat → Nat → Bytes
  | 0, _ => []
  | w + 1, n => beBytes w (n / 256) ++ [n % 256]

def beDecNat (bs : Bytes) : Nat := bs.foldl (fun acc b => acc * 256 + b) 0

theorem beBytes_length (w n : Nat) : (beBytes w n).length = w := by
  induction w generalizing n with
  | zero => rfl
  | succ w ih => simp [beBytes, ih]

theorem beDecNat_append (bs : Bytes) (b : Nat) :
    beDecNat (bs ++ [b]) = 256 * beDecNat bs + b := by
  simp [beDecNat, List.foldl_append, Nat.mul_comm]

theorem beDecNat_beBytes (w n : Nat) (h : n < 2 ^ (8 * w)) :
    beDecNat (beBytes w n) = n := by
  induction w generalizing n with
  | zero =>
    simp only [Nat.mul_zero, pow_zero, Nat.lt_one_iff] at h
    subst h; rfl
  | succ w ih =>
    have hdiv : n / 256 < 2 ^ (8 * w) := by
      have h2 : 2 ^ (8 * (w + 1)) = 2 ^ (8 * w) * 256 := by
        rw [Nat.mul_add, pow_add]; norm_num
      rw [h2] at h
      exact Nat.div_lt_of_lt_mul (by omega)
    rw [beBytes, beDecNat_append, ih _ hdiv]
    omega

/-- Encode the raw value of a signed fixed-point number as `w` big-endian
two's-complement bytes (`to_be_bytes` of the `substrate_fixed` types). -/
def encFixed (w : Nat) (v : Int) : Bytes :=
  beBytes w (v % ((2 : Int) ^ (8 * w))).toNat

/-- Decode `w` big-endian two's-complement bytes to the raw value
(`from_be_bytes`); the caller checks that the byte length is exactly `w`. -/
def decFixed (w : Nat) (bs : Bytes) : Int :=
  let n := beDecNat bs
  if (n : Int) < (2 : Int) ^ (8 * w - 1) then (n : Int) else (n : Int) - (2 : Int) ^ (8 * w)

theorem encFixed_length (w : Nat) (v : Int) : (encFixed w v).length = w :=
  beBytes_length _ _

theorem decFixed_encFixed_8 (v : Int) (h0 : -(2 ^ 63) ≤ v) (h1 : v < 2 ^ 63) :
    decFixed 8 (encFixed 8 v) = v := by
  have hmod : v % ((2 : Int) ^ 64) = if 0 ≤ v then v else v + 2 ^ 64 := by
    split
    · exact Int.emod_eq_of_lt (by assumption) (by norm_num; omega)
    · have : (v + 2 ^ 64) % ((2 : Int) ^ 64) = v % ((2 : Int) ^ 64) := by
        omega
      rw [← this]
      exact Int.emod_eq_of_lt (by omega) (by norm_num; omega)
  have hpow : (8 : Nat) * 8 = 64 := by norm_num
  unfold encFixed decFixed
  rw [hpow]
  have hlt : (v % ((2 : Int) ^ 64)).toNat < 2 ^ 64 := by
    rw [hmod]; split <;> [skip; skip] <;> norm_num <;> omega
  rw [beDecNat_beBytes 8 _ (by rw [hpow] at *; exact_mod_cast hlt)]
  rw [hmod]
  split
  · have : ((v.toNat : Int)) = v := by omega
    norm_num
    split <;> omega
  · norm_num
    split <;> omega

/-! ### Fixed-point raw arithmetic (release-mode `substrate_fixed`) -/

def wrap64 (x : Int) : Int := (x + 2 ^ 63) % 2 ^ 64 - 2 ^ 63

def wrap128 (x : Int) : Int := (x + 2 ^ 127) % 2 ^ 128 - 2 ^ 127

/-- I32F32 wrapping addition. -/
def add64 (a b : Int) : Int := wrap64 (a + b)

/-- I32F32 wrapping subtraction. -/
def sub64 (a b : Int) : Int := wrap64 (a - b)

/-- I32F32 multiplication: wide product arithmetically shifted right 32. -/
def mul64 (a b : Int) : Int := wrap64 (Int.fdiv (a * b) (2 ^ 32))

/-- `int * I32F32` (the `2 * epsilon` of `fuzzy_average`). -/
def mulInt64 (k a : Int) : Int := wrap64 (k * a)

/-- I32F32 division: panics (`none`) on a zero divisor. -/
def div64 (a b : Int) : Option Int :=
  if b = 0 then none else some (wrap64 (Int.tdiv (a * 2 ^ 32) b))

/-- I64F64 `checked_add`: `none` on overflow. -/
def checkedAdd128 (a b : Int) : Option Int :=
  if -(2 ^ 127) ≤ a + b ∧ a + b < 2 ^ 127 then some (a + b) else none

/-- I64F64 wrapping addition. -/
def add128 (a b : Int) : Int := wrap128 (a + b)

/-- I64F64 division: panics (`none`) on a zero divisor. -/
def div128 (a b : Int) : Option Int :=
  if b = 0 then none else some (wrap128 (Int.tdiv (a * 2 ^ 64) b))

/-- `I64F64::from_num(x: I32F32)`: exact widening. -/
def i32to64 (a : Int) : Int := a * 2 ^ 32

/-- `I32F32::from_num(x: I64F64)`: floors away the low 32 fractional bits
and panics (`none`) when the result is unrepresentable. -/
def i64to32 (a : Int) : Option Int :=
  let r := Int.fdiv a (2 ^ 32)
  if -(2 ^ 63) ≤ r ∧ r < 2 ^ 63 then some r else none

/-- `I32F32::from_num(c: u32)`: panics (`none`) when `c` exceeds the
integer range of I32F32. -/
def i32OfU32 (n : Nat) : Option Int :=
  if n < 2 ^ 31 then some ((n : Int) * 2 ^ 32) else none

/-- `u32::checked_add`. -/
def checkedAddU32 (a b : Nat) : Option Nat :=
  if a + b < 2 ^ 32 then some (a + b) else none

/-! ### Random source (random.rs) -/

/-- A deterministic 32-bit draw source: the stream of `next_u32` results. -/
structure Rng where
  f : Nat → Nat
  i : Nat

def nextU32 (r : Rng) : Nat × Rng :=
  (r.f r.i % 2 ^ 32, { r with i := r.i + 1 })

/-- Raw I64F64 quotient `I64F64::from_num(n) / I64F64::from_num(u32::MAX)`
 for a draw `n`; all operands are non-negative so the signed fixed-point
division is the floor division of the raw naturals. -/
def ruiQ (n : Nat) : Nat := n * 2 ^ 64 * 2 ^ 64 / ((2 ^ 32 - 1) * 2 ^ 64)

/-- random.rs `random_unit_interval`: one `next_u32` draw, divided by
`u32::MAX` in I64F64 and narrowed with `I32F32::from_num`. -/
def random_unit_interval (r : Rng) : Option Int × Rng :=
  let (n, r') := nextU32 r
  (i64to32 ((ruiQ n : Nat) : Int), r')

/-- laplace.rs `laplace`: difference of two exponentials
`(-scale) * ln(u1) - (-scale) * ln(u2)`; an `Err` from `ln` is unwrapped,
i.e. the call panics (`none`). -/
def laplace (lnf : Int → Option Int) (r : Rng) (scale : Int) : Option Int × Rng :=
  let (u1o, r1) := random_unit_interval r
  match u1o with
  | none => (none, r1)
  | some u1 =>
    match lnf u1 with
    | none => (none, r1)
    | some l1 =>
      let e1 := mul64 (wrap64 (-scale)) l1
      let (u2o, r2) := random_unit_interval r1
      match u2o with
      | none => (none, r2)
      | some u2 =>
        match lnf u2 with
        | none => (none, r2)
        | some l2 =>
          let e2 := mul64 (wrap64 (-scale)) l2
          (some (sub64 e1 e2), r2)

/-! ### Errors -/

/-- Error outcomes: `std` carries a `StdError::generic_err` message;
`trap` is a Rust panic (unwrap of an `Err`, division by zero, or a
`from_num` overflow) aborting the call. -/
inductive Err where
  | std (msg : String)
  | trap
deriving DecidableEq

def exceptIsOk {α : Type} : Except Err α → Bool
  | .ok _ => true
  | .error _ => false

/-! ### stats.rs: `RunningStats` -/

def DP_COLLECTING_DATA : Nat := 0

def DP_CALCULATING_STATS : Nat := 1

structure RunningStats where
  count : Nat
  sum : Int
  upper_bound : Int
  lower_bound : Int
  epsilon : Int
  sensitivity_for_average : Option Int
  privacy_budget : Int
  status : Nat
deriving DecidableEq

/-- stats.rs `RunningStats::new`. -/
def RunningStats.new (epsilon : Int) (sensitivity_for_average : Option Int)
    (privacy_budget : Int) : RunningStats :=
  { count := 0
    sum := 0
    upper_bound := 0
    lower_bound := 0
    epsilon := epsilon
    sensitivity_for_average := sensitivity_for_average
    privacy_budget := privacy_budget
    status := DP_COLLECTING_DATA }

/-- Body of stats.rs `RunningStats::add_observation` acting on the moved
`mut self`; the final state of that owned copy is made explicit here. -/
def addObservationFull (s : RunningStats) (x : Int) : Except Err RunningStats :=
  if s.status ≠ DP_CALCULATING_STATS then
    .error (.std "Cannot add more observations")
  else
    match checkedAddU32 s.count 1 with
    | none => .error (.std "Count overflow")
    | some newCount =>
      match checkedAdd128 s.sum (i32to64 x) with
      | none => .error (.std "Sum overflow")
      | some newSum =>
        let s1 := { s with count := newCount, sum := newSum }
        let s2 := if s1.upper_bound < x then { s1 with upper_bound := x } else s1
        let s3 := if s2.lower_bound > x then { s2 with lower_bound := x } else s2
        .ok s3

/-- stats.rs `RunningStats::add_observation`: consumes `self` by value and
returns only `StdResult<()>`; the updated copy is dropped. -/
def RunningStats.add_observation (s : RunningStats) (x : Int) : Except Err Unit :=
  (addObservationFull s x).map (fun _ => ())

/-- Body of stats.rs `RunningStats::dp_count` acting on the moved `mut self`. -/
def dpCountFull (lnf : Int → Option Int) (s : RunningStats) (r : Rng) :
    Except Err (Int × RunningStats) × Rng :=
  if s.status ≠ DP_CALCULATING_STATS then
    (.error (.std "Cannot calculate differentally private count"), r)
  else if s.count = 0 then
    (.error (.std "No data to count"), r)
  else if s.privacy_budget < s.epsilon then
    (.error (.std "Privacy budget exhausted"), r)
  else
    match div64 (2 ^ 32) s.epsilon with
    | none => (.error .trap, r)
    | some scale =>
      let (noiseo, r1) := laplace lnf r scale
      match noiseo with
      | none => (.error .trap, r1)
      | some noise =>
        match i32OfU32 s.count with
        | none => (.error .trap, r1)
        | some c =>
          let fuzzy := add64 noise c
          (.ok (fuzzy, { s with privacy_budget := sub64 s.privacy_budget s.epsilon }), r1)

/-- stats.rs `RunningStats::dp_count`: consumes `self` by value and returns
only the noisy count; the debited copy is dropped. -/
def RunningStats.dp_count (lnf : Int → Option Int) (s : RunningStats) (r : Rng) :
    Except Err Int × Rng :=
  let (res, r') := dpCountFull lnf s r
  (res.map Prod.fst, r')

/-- Body of stats.rs `RunningStats::dp_average` acting on the moved `mut self`. -/
def dpAverageFull (lnf : Int → Option Int) (s : RunningStats) (r : Rng) :
    Except Err (Int × RunningStats) × Rng :=
  if s.status ≠ DP_CALCULATING_STATS then
    (.error (.std "Cannot calculate differentially private average"), r)
  else if s.count = 0 then
    (.error (.std "No data to count"), r)
  else
    let privacy_cost := mulInt64 2 s.epsilon
    if s.privacy_budget < privacy_cost then
      (.error (.std "Privacy budget exhausted"), r)
    else
      let sensitivity :=
        match s.sensitivity_for_average with
        | some sfa => sfa
        | none => sub64 s.upper_bound s.lower_bound
      match div64 sensitivity s.epsilon with
      | none => (.error .trap, r)
      | some scale =>
        let (sumNoiseo, r1) := laplace lnf r scale
        match sumNoiseo with
        | none => (.error .trap, r1)
        | some sumNoise =>
          let fuzzySum := add128 s.sum (i32to64 sumNoise)
          match div64 (2 ^ 32) s.epsilon with
          | none => (.error .trap, r1)
          | some scale2 =>
            let (noiseo, r2) := laplace lnf r1 scale2
            match noiseo with
            | none => (.error .trap, r2)
            | some noise =>
              match i32OfU32 s.count with
              | none => (.error .trap, r2)
              | some realCount =>
                let fuzzyCount := i32to64 (add64 realCount noise)
                match div128 fuzzySum fuzzyCount with
                | none => (.error .trap, r2)
                | some q =>
                  match i64to32 q with
                  | none => (.error .trap, r2)
                  | some fuzzyAvg =>
                    (.ok (fuzzyAvg,
                      { s with privacy_budget := sub64 s.privacy_budget privacy_cost }), r2)

/-- stats.rs `RunningStats::dp_average`: consumes `self` by value and
returns only the noisy average; the debited copy is dropped. -/
def RunningStats.dp_average (lnf : Int → Option Int) (s : RunningStats) (r : Rng) :
    Except Err Int × Rng :=
  let (res, r') := dpAverageFull lnf s r
  (res.map Prod.fst, r')

/-! ### running_stats_store.rs: keys and status -/

def COUNT_KEY : Bytes := [99, 111, 117, 110, 116]

def SUM_KEY : Bytes := [115, 117, 109]

def UPPER_BOUND_KEY : Bytes := [117, 98]

def LOWER_BOUND_KEY : Bytes := [108, 98]

def EPSILON_KEY : Bytes := [101, 112, 115, 105, 108, 111, 110]

def SENSITIVITY_FOR_AVG_KEY : Bytes := [97, 45, 115, 101, 110]

def PRIVACY_BUDGET_KEY : Bytes := [98, 117, 100, 103, 101, 116]

def STATUS_KEY : Bytes := [115, 116, 97, 116, 117, 115]

inductive RunningStatsStatus where
  | CollectingData
  | CalculatingStats
deriving DecidableEq

def STATUS_COLLECTING_DATA : Nat := 0

def STATUS_CALCULATING_STATS : Nat := 1

/-- The raw of `I32F32::min_value()`. -/
def i32f32Min : Int := -(2 ^ 63)

/-- The raw of `I32F32::max_value()`. -/
def i32f32Max : Int := 2 ^ 63 - 1

/-- The raw of `I32F32::from(1)`. -/
def i32f32One : Int := 2 ^ 32

/-- The per-instance lazily populated field cache of `RunningStatsStore`
(one `Mutex<Option<_>>` per field in the source). The setters of the store
never write to it; only the getters populate it. -/
structure Cache where
  count : Option Nat := none
  sum : Option Int := none
  upper_bound : Option Int := none
  lower_bound : Option Int := none
  epsilon : Option Int := none
  avg_sensitivity : Option Int := none
  privacy_budget : Option Int := none
  status : Option RunningStatsStatus := none
deriving DecidableEq

def emptyCache : Cache := {}

/-! ### running_stats_store.rs: getters (read-only on storage, populate cache) -/

/-- `RunningStatsStore::get_count` (defaults to 0 when the key is absent). -/
def getCount (ns : Bytes) (c : Cache) (s : KVStorage) : Except Err (Nat × Cache) :=
  match c.count with
  | some n => .ok (n, c)
  | none =>
    match sget s (ns ++ COUNT_KEY) with
    | some bs =>
      if bs.length = 4 then
        let n := beDecNat bs
        .ok (n, { c with count := some n })
      else .error (.std "Error parsing into type u32")
    | none => .ok (0, { c with count := some 0 })

/-- `RunningStatsStore::get_sum` (defaults to 0). -/
def getSum (ns : Bytes) (c : Cache) (s : KVStorage) : Except Err (Int × Cache) :=
  match c.sum with
  | some v => .ok (v, c)
  | none =>
    match sget s (ns ++ SUM_KEY) with
    | some bs =>
      if bs.length = 16 then
        let v := decFixed 16 bs
        .ok (v, { c with sum := some v })
      else .error (.std "TryFromSliceError")
    | none => .ok (0, { c with sum := some 0 })

/-- `RunningStatsStore::get_upper_bound` (defaults to `I32F32::min_value()`). -/
def getUpperBound (ns : Bytes) (c : Cache) (s : KVStorage) : Except Err (Int × Cache) :=
  match c.upper_bound with
  | some v => .ok (v, c)
  | none =>
    match sget s (ns ++ UPPER_BOUND_KEY) with
    | some bs =>
      if bs.length = 8 then
        let v := decFixed 8 bs
        .ok (v, { c with upper_bound := some v })
      else .error (.std "TryFromSliceError")
    | none => .ok (i32f32Min, { c with upper_bound := some i32f32Min })

/-- `RunningStatsStore::get_lower_bound` (defaults to `I32F32::max_value()`). -/
def getLowerBound (ns : Bytes) (c : Cache) (s : KVStorage) : Except Err (Int × Cache) :=
  match c.lower_bound with
  | some v => .ok (v, c)
  | none =>
    match sget s (ns ++ LOWER_BOUND_KEY) with
    | some bs =>
      if bs.length = 8 then
        let v := decFixed 8 bs
        .ok (v, { c with lower_bound := some v })
      else .error (.std "TryFromSliceError")
    | none => .ok (i32f32Max, { c with lower_bound := some i32f32Max })

/-- `RunningStatsStore::get_epsilon` (defaults to 1). -/
def getEpsilon (ns : Bytes) (c : Cache) (s : KVStorage) : Except Err (Int × Cache) :=
  match c.epsilon with
  | some v => .ok (v, c)
  | none =>
    match sget s (ns ++ EPSILON_KEY) with
    | some bs =>
      if bs.length = 8 then
        let v := decFixed 8 bs
        .ok (v, { c with epsilon := some v })
      else .error (.std "TryFromSliceError")
    | none => .ok (i32f32One, { c with epsilon := some i32f32One })

/-- `RunningStatsStore::get_avg_sensitivity` (no default; an absent key is
reported as `None` and is not cached). -/
def getAvgSensitivity (ns : Bytes) (c : Cache) (s : KVStorage) :
    Except Err (Option Int × Cache) :=
  match c.avg_sensitivity with
  | some v => .ok (some v, c)
  | none =>
    match sget s (ns ++ SENSITIVITY_FOR_AVG_KEY) with
    | some bs =>
      if bs.length = 8 then
        let v := decFixed 8 bs
        .ok (some v, { c with avg_sensitivity := some v })
      else .error (.std "TryFromSliceError")
    | none => .ok (none, c)

/-- `RunningStatsStore::get_privacy_budget` (defaults to 1). -/
def getPrivacyBudget (ns : Bytes) (c : Cache) (s : KVStorage) : Except Err (Int × Cache) :=
  match c.privacy_budget with
  | some v => .ok (v, c)
  | none =>
    match sget s (ns ++ PRIVACY_BUDGET_KEY) with
    | some bs =>
      if bs.length = 8 then
        let v := decFixed 8 bs
        .ok (v, { c with privacy_budget := some v })
      else .error (.std "TryFromSliceError")
    | none => .ok (i32f32One, { c with privacy_budget := some i32f32One })

/-- `RunningStatsStore::get_status` (defaults to `CollectingData`). -/
def getStatus (ns : Bytes) (c : Cache) (s : KVStorage) :
    Except Err (RunningStatsStatus × Cache) :=
  match c.status with
  | some st => .ok (st, c)
  | none =>
    match sget s (ns ++ STATUS_KEY) with
    | some bs =>
      match bs with
      | [b] =>
        if b = STATUS_COLLECTING_DATA then
          .ok (.CollectingData, { c with status := some .CollectingData })
        else if b = STATUS_CALCULATING_STATS then
          .ok (.CalculatingStats, { c with status := some .CalculatingStats })
        else .error (.std "Invalid u8 value for storage status")
      | _ => .error (.std "Error parsing into type u8")
    | none => .ok (.CollectingData, { c with status := some .CollectingData })

/-- `RunningStatsStore::is_empty`. -/
def isEmpty (ns : Bytes) (c : Cache) (s : KVStorage) : Except Err (Bool × Cache) :=
  match getCount ns c s with
  | .error e => .error e
  | .ok (n, c1) => .ok (decide (n = 0), c1)

/-! ### running_stats_store.rs: setters (write storage only, never the cache) -/

/-- `RunningStatsStore::set_count`. -/
def setCount (ns : Bytes) (s : KVStorage) (n : Nat) : KVStorage :=
  sset s (ns ++ COUNT_KEY) (beBytes 4 n)

/-- `RunningStatsStore::set_sum` (16-byte `I64F64::to_be_bytes`). -/
def setSum (ns : Bytes) (s : KVStorage) (v : Int) : KVStorage :=
  sset s (ns ++ SUM_KEY) (encFixed 16 v)

/-- `RunningStatsStore::set_upper_bound` (8-byte `I32F32::to_be_bytes`). -/
def setUpperBound (ns : Bytes) (s : KVStorage) (v : Int) : KVStorage :=
  sset s (ns ++ UPPER_BOUND_KEY) (encFixed 8 v)

/-- `RunningStatsStore::set_lower_bound` (8-byte `I32F32::to_be_bytes`). -/
def setLowerBound (ns : Bytes) (s : KVStorage) (v : Int) : KVStorage :=
  sset s (ns ++ LOWER_BOUND_KEY) (encFixed 8 v)

/-- `RunningStatsStore::set_epsilon` (the cache update is commented out in
the source: only storage is written). -/
def setEpsilon (ns : Bytes) (s : KVStorage) (v : Int) : KVStorage :=
  sset s (ns ++ EPSILON_KEY) (encFixed 8 v)

/-- `RunningStatsStore::set_privacy_budget` (storage only, no cache write). -/
def setPrivacyBudget (ns : Bytes) (s : KVStorage) (v : Int) : KVStorage :=
  sset s (ns ++ PRIVACY_BUDGET_KEY) (encFixed 8 v)

/-! ### running_stats_store.rs: composite operations -/

/-- `RunningStatsStore::set_status`: reverting to `CollectingData` is refused
when `get_status` observes `CalculatingStats`; entering `CalculatingStats`
is refused when `get_count` observes 0 (and checks nothing else). -/
def setStatus (ns : Bytes) (c : Cache) (s : KVStorage) (st : RunningStatsStatus) :
    Except Err Unit × Cache × KVStorage :=
  match st with
  | .CollectingData =>
    match getStatus ns c s with
    | .error e => (.error e, c, s)
    | .ok (cur, c1) =>
      if cur = .CalculatingStats then
        (.error (.std "Cannot set status to collecting data after changing to calculating stats"),
          c1, s)
      else
        (.ok (), c1, sset s (ns ++ STATUS_KEY) [STATUS_COLLECTING_DATA])
  | .CalculatingStats =>
    match getCount ns c s with
    | .error e => (.error e, c, s)
    | .ok (n, c1) =>
      if n = 0 then (.error (.std "No data in running stats store"), c1, s)
      else (.ok (), c1, sset s (ns ++ STATUS_KEY) [STATUS_CALCULATING_STATS])

/-- `RunningStatsStore::add_observation`: note that the new count is
persisted before the sum overflow check runs. -/
def addObservation (ns : Bytes) (c : Cache) (s : KVStorage) (x : Int) :
    Except Err Unit × Cache × KVStorage :=
  match getStatus ns c s with
  | .error e => (.error e, c, s)
  | .ok (st, c1) =>
    if st ≠ .CollectingData then
      (.error (.std "Status is not set to collecting data"), c1, s)
    else
      match getCount ns c1 s with
      | .error e => (.error e, c1, s)
      | .ok (n, c2) =>
        match checkedAddU32 n 1 with
        | none => (.error (.std "Count overflow"), c2, s)
        | some newCount =>
          let s1 := setCount ns s newCount
          match getSum ns c2 s1 with
          | .error e => (.error e, c2, s1)
          | .ok (sum, c3) =>
            match checkedAdd128 sum (i32to64 x) with
            | none => (.error (.std "Sum overflow"), c3, s1)
            | some newSum =>
              let s2 := setSum ns s1 newSum
              match getUpperBound ns c3 s2 with
              | .error e => (.error e, c3, s2)
              | .ok (ub, c4) =>
                let s3 := if ub < x then setUpperBound ns s2 x else s2
                match getLowerBound ns c4 s3 with
                | .error e => (.error e, c4, s3)
                | .ok (lb, c5) =>
                  let s4 := if lb > x then setLowerBound ns s3 x else s3
                  (.ok (), c5, s4)

/-- `RunningStatsStore::fuzzy_count`: COUNT query at cost `epsilon`. -/
def fuzzyCount (lnf : Int → Option Int) (ns : Bytes) (c : Cache) (s : KVStorage)
    (r : Rng) : Except Err Int × Cache × KVStorage × Rng :=
  match getStatus ns c s with
  | .error e => (.error e, c, s, r)
  | .ok (st, c1) =>
    if st ≠ .CalculatingStats then
      (.error (.std "Status not set to calculating stats"), c1, s, r)
    else
      match isEmpty ns c1 s with
      | .error e => (.error e, c1, s, r)
      | .ok (empty, c2) =>
        if empty then (.error (.std "No data to count"), c2, s, r)
        else
          match getEpsilon ns c2 s with
          | .error e => (.error e, c2, s, r)
          | .ok (eps, c3) =>
            match getPrivacyBudget ns c3 s with
            | .error e => (.error e, c3, s, r)
            | .ok (pb, c4) =>
              if pb < eps then (.error (.std "Privacy budget exhausted"), c4, s, r)
              else
                match div64 i32f32One eps with
                | none => (.error .trap, c4, s, r)
                | some scale =>
                  let (noiseo, r1) := laplace lnf r scale
                  match noiseo with
                  | none => (.error .trap, c4, s, r1)
                  | some noise =>
                    match getCount ns c4 s with
                    | .error e => (.error e, c4, s, r1)
                    | .ok (n, c5) =>
                      match i32OfU32 n with
                      | none => (.error .trap, c5, s, r1)
                      | some cnt =>
                        let fuzzy := add64 cnt noise
                        let s1 := setPrivacyBudget ns s (sub64 pb eps)
                        (.ok fuzzy, c5, s1, r1)

/-- `RunningStatsStore::fuzzy_average`: AVERAGE query at cost `2 * epsilon`;
the only storage write is the final budget debit. -/
def fuzzyAverage (lnf : Int → Option Int) (ns : Bytes) (c : Cache) (s : KVStorage)
    (r : Rng) : Except Err Int × Cache × KVStorage × Rng :=
  match getStatus ns c s with
  | .error e => (.error e, c, s, r)
  | .ok (st, c1) =>
    if st ≠ .CalculatingStats then
      (.error (.std "Status not set to calculating stats"), c1, s, r)
    else
      match isEmpty ns c1 s with
      | .error e => (.error e, c1, s, r)
      | .ok (empty, c2) =>
        if empty then (.error (.std "No data to count"), c2, s, r)
        else
          match getEpsilon ns c2 s with
          | .error e => (.error e, c2, s, r)
          | .ok (eps, c3) =>
            let privacyCost := mulInt64 2 eps
            match getPrivacyBudget ns c3 s with
            | .error e => (.error e, c3, s, r)
            | .ok (pb, c4) =>
              if pb < privacyCost then
                (.error (.std "Privacy budget exhausted"), c4, s, r)
              else
                match getAvgSensitivity ns c4 s with
                | .error e => (.error e, c4, s, r)
                | .ok (sfao, c5) =>
                  match
                    (match sfao with
                     | some sfa => .ok (sfa, c5)
                     | none =>
                       match getUpperBound ns c5 s with
                       | .error e => .error e
                       | .ok (ub, c6) =>
                         match getLowerBound ns c6 s with
                         | .error e => .error e
                         | .ok (lb, c7) => .ok (sub64 ub lb, c7) :
                      Except Err (Int × Cache))
                  with
                  | .error e => (.error e, c5, s, r)
                  | .ok (sensitivity, c7) =>
                    match div64 sensitivity eps with
                    | none => (.error .trap, c7, s, r)
                    | some scale =>
                      let (sumNoiseo, r1) := laplace lnf r scale
                      match sumNoiseo with
                      | none => (.error .trap, c7, s, r1)
                      | some sumNoise =>
                        match getSum ns c7 s with
                        | .error e => (.error e, c7, s, r1)
                        | .ok (sum, c8) =>
                          let dpSum := add128 sum (i32to64 sumNoise)
                          match div64 i32f32One eps with
                          | none => (.error .trap, c8, s, r1)
                          | some scale2 =>
                            let (noiseo, r2) := laplace lnf r1 scale2
                            match noiseo with
                            | none => (.error .trap, c8, s, r2)
                            | some noise =>
                              match getCount ns c8 s with
                              | .error e => (.error e, c8, s, r2)
                              | .ok (n, c9) =>
                                match i32OfU32 n with
                                | none => (.error .trap, c9, s, r2)
                                | some realCount =>
                                  let dpCount := i32to64 (add64 realCount noise)
                                  match div128 dpSum dpCount with
                                  | none => (.error .trap, c9, s, r2)
                                  | some q =>
                                    match i64to32 q with
                                    | none => (.error .trap, c9, s, r2)
                                    | some dpAvg =>
                                      let s1 := setPrivacyBudget ns s (sub64 pb privacyCost)
                                      (.ok dpAvg, c9, s1, r2)

/-! ### Helper lemmas about the uniform draw -/

theorem ruiQ_le_two64 (n : Nat) (h : n < 2 ^ 32) : ruiQ n ≤ 2 ^ 64 := by
  unfold ruiQ
  have h1 : n * 2 ^ 64 * 2 ^ 64 ≤ (2 ^ 32 - 1) * 2 ^ 64 * 2 ^ 64 :=
    Nat.mul_le_mul_right _ (Nat.mul_le_mul_right _ (by omega))
  calc n * 2 ^ 64 * 2 ^ 64 / ((2 ^ 32 - 1) * 2 ^ 64)
      ≤ (2 ^ 32 - 1) * 2 ^ 64 * 2 ^ 64 / ((2 ^ 32 - 1) * 2 ^ 64) := Nat.div_le_div_right h1
    _ = 2 ^ 64 := Nat.mul_div_cancel_left _ (by positivity)

theorem ruiQ_ge_two32 (n : Nat) (h : 1 ≤ n) : 2 ^ 32 ≤ ruiQ n := by
  have h1 : ruiQ 1 ≤ ruiQ n := by
    unfold ruiQ
    exact Nat.div_le_div_right (Nat.mul_le_mul_right _ (Nat.mul_le_mul_right _ h))
  have h2 : 2 ^ 32 ≤ ruiQ 1 := by decide
  omega

/-- `random_unit_interval` never traps: the value always fits `I32F32`, and it
is the floor division of the raw quotient by `2^32`. -/
theorem random_unit_interval_eq (r : Rng) :
    random_unit_interval r =
      (some ((ruiQ (r.f r.i % 2 ^ 32) / 2 ^ 32 : Nat) : Int), { f := r.f, i := r.i + 1 }) := by
  have hn : r.f r.i % 2 ^ 32 < 2 ^ 32 := Nat.mod_lt _ (by norm_num)
  have hq := ruiQ_le_two64 _ hn
  have hdivle : ruiQ (r.f r.i % 2 ^ 32) / 2 ^ 32 ≤ 2 ^ 32 := by
    calc ruiQ (r.f r.i % 2 ^ 32) / 2 ^ 32 ≤ 2 ^ 64 / 2 ^ 32 := Nat.div_le_div_right hq
      _ = 2 ^ 32 := by norm_num
  unfold random_unit_interval nextU32 i64to32
  have hcast : (2 ^ 32 : Int) = ((2 ^ 32 : Nat) : Int) := by norm_cast
  simp only [hcast, ← Int.ofNat_fdiv]
  have hcond : -(2 ^ 63 : Int) ≤ ((ruiQ (r.f r.i % 2 ^ 32) / 2 ^ 32 : Nat) : Int) ∧
      ((ruiQ (r.f r.i % 2 ^ 32) / 2 ^ 32 : Nat) : Int) < 2 ^ 63 := by
    constructor
    · exact le_trans (by norm_num) (Int.ofNat_nonneg _)
    · have : ((ruiQ (r.f r.i % 2 ^ 32) / 2 ^ 32 : Nat) : Int) ≤ ((2 ^ 32 : Nat) : Int) :=
        Int.ofNat_le.mpr hdivle
      calc ((ruiQ (r.f r.i % 2 ^ 32) / 2 ^ 32 : Nat) : Int) ≤ ((2 ^ 32 : Nat) : Int) := this
        _ < 2 ^ 63 := by norm_num
  rw [if_pos hcond]

/-- `laplace` returns a sample whenever `ln` is defined at both uniform draws;
it consumes exactly two 32-bit draws. -/
theorem laplace_some (lnf : Int → Option Int) (r : Rng) (scale : Int)
    (h1 : (lnf ((ruiQ (r.f r.i % 2 ^ 32) / 2 ^ 32 : Nat) : Int)).isSome)
    (h2 : (lnf ((ruiQ (r.f (r.i + 1) % 2 ^ 32) / 2 ^ 32 : Nat) : Int)).isSome) :
    ∃ v, laplace lnf r scale = (some v, { f := r.f, i := r.i + 1 + 1 }) := by
  obtain ⟨l1, hl1⟩ := Option.isSome_iff_exists.mp h1
  obtain ⟨l2, hl2⟩ := Option.isSome_iff_exists.mp h2
  unfold laplace
  rw [random_unit_interval_eq r]
  simp only []
  rw [hl1]
  rw [random_unit_interval_eq ⟨r.f, r.i + 1⟩]
  simp only []
  rw [hl2]
  exact ⟨_, rfl⟩

/-! ### Shared concrete inputs for the claim evaluations -/

/-- A trivial `ln` model, defined everywhere (used where only the shape of
the noise path matters, never its value). -/
def lnf0 : Int → Option Int := fun _ => some 0

/-- An `ln` model returning 1 at the fixed-point 1 and 0 elsewhere (used to
steer one noise draw to exactly -1). -/
def lnfW : Int → Option Int := fun x => if x = i32f32One then some i32f32One else some 0

/-- Modelled from the spec: the external `substrate_fixed` transcendental
`ln`, of which only the domain contract is relevant — it returns an error
exactly on non-positive input (the open-question case of the spec's Design
Notes); the value returned on positive input is irrelevant to the claims
and fixed to 0 here. -/
def lnModel : Int → Option Int := fun x => if x ≤ 0 then none else some 0

/-- A draw stream that always yields 1. -/
def rngOnes : Rng := ⟨fun _ => 1, 0⟩

/-- A draw stream that always yields 0 (a uniform draw of exactly 0). -/
def rngZero : Rng := ⟨fun _ => 0, 0⟩

/-! ### C7 -/

/-- C7 counterexample: `RunningStats::new` initialises `upper_bound` and
`lower_bound` to 0, not to the minimum/maximum representable fixed-point
values asserted by the claim. -/
theorem running_stats_new_bounds_are_zero :
    (RunningStats.new i32f32One none i32f32One).upper_bound = 0 ∧
    (RunningStats.new i32f32One none i32f32One).lower_bound = 0 ∧
    (0 : Int) ≠ i32f32Min ∧ (0 : Int) ≠ i32f32Max :=
  ⟨rfl, rfl, by decide, by decide⟩

/-- C7 (amended): before any observation the store's defaults are
count = 0, sum = 0, upper_bound = minimum representable and lower_bound =
maximum representable (so the first observation updates both bounds),
whereas `RunningStats::new` also starts at count = 0 and sum = 0 but with
both bounds equal to 0 (so a first observation equal to 0 updates neither). -/
theorem initial_defaults_store_and_new (ns : Bytes) (eps pb : Int) (sfa : Option Int) :
    getCount ns emptyCache [] = .ok (0, { emptyCache with count := some 0 }) ∧
    getSum ns emptyCache [] = .ok (0, { emptyCache with sum := some 0 }) ∧
    getUpperBound ns emptyCache [] =
      .ok (i32f32Min, { emptyCache with upper_bound := some i32f32Min }) ∧
    getLowerBound ns emptyCache [] =
      .ok (i32f32Max, { emptyCache with lower_bound := some i32f32Max }) ∧
    (RunningStats.new eps sfa pb).count = 0 ∧
    (RunningStats.new eps sfa pb).sum = 0 ∧
    (RunningStats.new eps sfa pb).upper_bound = 0 ∧
    (RunningStats.new eps sfa pb).lower_bound = 0 :=
  ⟨rfl, rfl, rfl, rfl, rfl, rfl, rfl, rfl⟩

/-! ### C10 -/

/-- C10 counterexample: `set_sum` persists a 16-byte value and
`set_upper_bound` an 8-byte value, not the 8/4 bytes the claim states. -/
theorem set_sum_writes_sixteen_bytes :
    (sget (setSum [] [] 0) SUM_KEY).map List.length = some 16 ∧
    (sget (setUpperBound [] [] 0) UPPER_BOUND_KEY).map List.length = some 8 ∧
    (16 : Nat) ≠ 8 ∧ (8 : Nat) ≠ 4 :=
  ⟨rfl, rfl, by decide, by decide⟩

/-- C10 (amended): each persisted field has a fixed byte width, namely
16 bytes for `sum`, 8 bytes for `upper_bound`, `lower_bound`, `epsilon`
and `privacy_budget` (the raw width of `I64F64` resp. `I32F32`), and
4 bytes for `count`, each stored big-endian under its tag. -/
theorem persisted_field_widths (ns : Bytes) (s : KVStorage) (v : Int) (n : Nat) :
    (sget (setSum ns s v) (ns ++ SUM_KEY)).map List.length = some 16 ∧
    (sget (setUpperBound ns s v) (ns ++ UPPER_BOUND_KEY)).map List.length = some 8 ∧
    (sget (setLowerBound ns s v) (ns ++ LOWER_BOUND_KEY)).map List.length = some 8 ∧
    (sget (setEpsilon ns s v) (ns ++ EPSILON_KEY)).map List.length = some 8 ∧
    (sget (setPrivacyBudget ns s v) (ns ++ PRIVACY_BUDGET_KEY)).map List.length = some 8 ∧
    (sget (setCount ns s n) (ns ++ COUNT_KEY)).map List.length = some 4 := by
  refine ⟨?_, ?_, ?_, ?_, ?_, ?_⟩ <;>
    simp [setSum, setUpperBound, setLowerBound, setEpsilon, setPrivacyBudget, setCount,
      sget_sset_self, encFixed_length, beBytes_length]

/-! ### C6 -/

/-- C6 (code bug): stats.rs `RunningStats::add_observation` tests
`status != DP_CALCULATING_STATS`, the inverse of the claimed (and of the
store implementation's) check: on a freshly constructed value, whose status
is `CollectingData`, it fails with the `InvalidState` message, while it
succeeds when the status is `CalculatingStats`; the store implementation
behaves as claimed on the same inputs. -/
theorem stats_add_observation_inverted_status_check :
    (RunningStats.new i32f32One none i32f32One).status = DP_COLLECTING_DATA ∧
    RunningStats.add_observation (RunningStats.new i32f32One none i32f32One) i32f32One
      = .error (.std "Cannot add more observations") ∧
    RunningStats.add_observation
      { RunningStats.new i32f32One none i32f32One with status := DP_CALCULATING_STATS }
      i32f32One = .ok () ∧
    (addObservation [] emptyCache [] i32f32One).1 = .ok () ∧
    (addObservation [] { emptyCache with status := some .CalculatingStats } [] i32f32One).1
      = .error (.std "Status is not set to collecting data") :=
  ⟨rfl, rfl, rfl, rfl, rfl⟩

/-! ### C3 -/

/-- Storage holding count = 5 and sum = `I64F64::MAX`, so the next
observation overflows the sum. -/
def sumOverflowStorage : KVStorage :=
  [(COUNT_KEY, beBytes 4 5), (SUM_KEY, encFixed 16 (2 ^ 127 - 1))]

/-- C3 (code bug): `RunningStatsStore::add_observation` persists the
incremented count before checking the sum for overflow, so a failing call
(`Sum overflow`) leaves count = 6 in storage where the claim requires it to
remain 5. -/
theorem add_observation_sum_overflow_persists_count :
    (addObservation [] emptyCache sumOverflowStorage i32f32One).1
      = .error (.std "Sum overflow") ∧
    sget (addObservation [] emptyCache sumOverflowStorage i32f32One).2.2 COUNT_KEY
      = some (beBytes 4 6) ∧
    sget sumOverflowStorage COUNT_KEY = some (beBytes 4 5) :=
  ⟨rfl, rfl, rfl⟩

/-! ### C2 -/

/-- Storage for a finalized session with one observation and a privacy
budget of exactly 1 = epsilon (epsilon defaults to 1). -/
def budgetOneStorage : KVStorage :=
  [(STATUS_KEY, [1]), (COUNT_KEY, beBytes 4 1), (PRIVACY_BUDGET_KEY, encFixed 8 i32f32One)]

/-- First `fuzzy_count` call on a fresh instance over `budgetOneStorage`. -/
def fcFirst : Except Err Int × Cache × KVStorage × Rng :=
  fuzzyCount lnf0 [] emptyCache budgetOneStorage rngOnes

/-- Second `fuzzy_count` call on the same instance (cache and storage as
left by the first call). -/
def fcSecond : Except Err Int × Cache × KVStorage × Rng :=
  fuzzyCount lnf0 [] fcFirst.2.1 fcFirst.2.2.1 fcFirst.2.2.2

/-- C2 (code bug): with initial budget 1 and epsilon 1, the first
`fuzzy_count` succeeds and persists budget 0, yet a second call on the same
instance also succeeds — its budget check reads the stale cached value 1 —
and persists budget 0 again; the claim requires the second call to fail
with `BudgetExhausted` (cost 1 exceeds the remaining 0) and the final
budget to be `initial - Σ costs`. -/
theorem fuzzy_count_stale_cache_overspends :
    fcFirst.1 = .ok i32f32One ∧
    sget fcFirst.2.2.1 PRIVACY_BUDGET_KEY = some (encFixed 8 0) ∧
    fcFirst.2.1.privacy_budget = some i32f32One ∧
    fcSecond.1 = .ok i32f32One ∧
    sget fcSecond.2.2.1 PRIVACY_BUDGET_KEY = some (encFixed 8 0) :=
  ⟨rfl, rfl, rfl, rfl, rfl⟩

/-! ### C4 -/

/-- The cache of an instance that has already read the (default 1)
privacy budget. -/
def cachedBudgetOne : Cache := { emptyCache with privacy_budget := some i32f32One }

/-- C4 counterexample: once `get_privacy_budget` has populated the
instance cache (here with the default 1), a `set_privacy_budget(5)` writes
only storage, and the next `get_privacy_budget` on the same instance still
returns the stale 1 — not the 5 the claim requires. -/
theorem get_privacy_budget_stale_after_set :
    getPrivacyBudget [] emptyCache [] = .ok (i32f32One, cachedBudgetOne) ∧
    getPrivacyBudget [] cachedBudgetOne (setPrivacyBudget [] [] (5 * i32f32One))
      = .ok (i32f32One, cachedBudgetOne) ∧
    i32f32One ≠ 5 * i32f32One :=
  ⟨rfl, rfl, by decide⟩

/-- C4 (amended): read-your-writes coherence holds only when the read
field's cache slot is still unpopulated: then `get_privacy_budget` after
`set_privacy_budget(b)` returns `b`, and `get_epsilon` after
`set_epsilon(e)` returns `e` (for raw values in the `I32F32` range); a
previously populated cache slot keeps serving its stale value because the
setters never write the cache. -/
theorem set_get_coherence_on_unpopulated_cache (ns : Bytes) (c : Cache) (s : KVStorage)
    (b e : Int) (hb0 : -(2 ^ 63) ≤ b) (hb1 : b < 2 ^ 63)
    (he0 : -(2 ^ 63) ≤ e) (he1 : e < 2 ^ 63)
    (hcb : c.privacy_budget = none) (hce : c.epsilon = none) :
    getPrivacyBudget ns c (setPrivacyBudget ns s b)
      = .ok (b, { c with privacy_budget := some b }) ∧
    getEpsilon ns c (setEpsilon ns s e) = .ok (e, { c with epsilon := some e }) := by
  constructor
  · unfold getPrivacyBudget setPrivacyBudget
    rw [hcb, sget_sset_self]
    simp [encFixed_length, decFixed_encFixed_8 b hb0 hb1]
  · unfold getEpsilon setEpsilon
    rw [hce, sget_sset_self]
    simp [encFixed_length, decFixed_encFixed_8 e he0 he1]

/-- C4 witness: the amended coherence at concrete values 3 and 2 on a fresh
instance and empty storage. -/
theorem set_get_coherence_witness :
    getPrivacyBudget [] emptyCache (setPrivacyBudget [] [] (3 * i32f32One))
      = .ok (3 * i32f32One, { emptyCache with privacy_budget := some (3 * i32f32One) }) ∧
    getEpsilon [] emptyCache (setEpsilon [] [] (2 * i32f32One))
      = .ok (2 * i32f32One, { emptyCache with epsilon := some (2 * i32f32One) }) :=
  set_get_coherence_on_unpopulated_cache [] emptyCache [] (3 * i32f32One) (2 * i32f32One)
    (by decide) (by decide) (by decide) (by decide) rfl rfl

/-! ### C9 -/

/-- Storage of a collecting session with five observations recorded. -/
def countFiveCollecting : KVStorage := [(COUNT_KEY, beBytes 4 5), (STATUS_KEY, [0])]

/-- Storage of a finalized session with five observations recorded. -/
def countFiveCalculating : KVStorage := [(COUNT_KEY, beBytes 4 5), (STATUS_KEY, [1])]

/-- Cache of an instance that observed `CollectingData` before finalize. -/
def staleCollectingCache : Cache := { emptyCache with status := some .CollectingData }

/-- Finalize performed through an instance whose status cache already
holds `CollectingData`. -/
def c9Finalize : Except Err Unit × Cache × KVStorage :=
  setStatus [] staleCollectingCache countFiveCollecting .CalculatingStats

/-- Attempted revert to `CollectingData` through the same instance. -/
def c9Revert : Except Err Unit × Cache × KVStorage :=
  setStatus [] c9Finalize.2.1 c9Finalize.2.2 .CollectingData

/-- C9 counterexample: (i) a second finalize on an already finalized store
succeeds instead of being rejected with `InvalidState`; (ii) after
`get_status` has cached `CollectingData`, a successful finalize, then
`set_status(CollectingData)` also succeeds — its guard consults the stale
cache — and the persisted status byte returns to 0, contradicting
irreversibility. -/
theorem set_status_refinalize_and_stale_revert :
    (setStatus [] emptyCache countFiveCalculating .CalculatingStats).1 = .ok () ∧
    getStatus [] emptyCache countFiveCollecting = .ok (.CollectingData, staleCollectingCache) ∧
    c9Finalize.1 = .ok () ∧
    sget c9Finalize.2.2 STATUS_KEY = some [1] ∧
    c9Revert.1 = .ok () ∧
    sget c9Revert.2.2 STATUS_KEY = some [0] :=
  ⟨rfl, rfl, rfl, rfl, rfl, rfl⟩

/-- C9 (amended): `set_status(CalculatingStats)` fails with `EmptyDataset`
exactly when `get_count` observes 0 and otherwise succeeds — even when the
persisted status is already `CalculatingStats` (re-finalize is accepted,
not rejected); and `set_status(CollectingData)` fails with `InvalidState`
whenever `get_status` actually reads `CalculatingStats` from storage
(unpopulated cache slot), the persisted status being returned to
`CollectingData` only through a stale `CollectingData` cache. -/
theorem set_status_amended_behaviour (ns : Bytes) (c : Cache) (s : KVStorage)
    (n : Nat) (c1 : Cache) :
    (getCount ns c s = .ok (0, c1) →
      setStatus ns c s .CalculatingStats
        = (.error (.std "No data in running stats store"), c1, s)) ∧
    (c.status = none → sget s (ns ++ STATUS_KEY) = some [1] →
      setStatus ns c s .CollectingData
        = (.error
            (.std "Cannot set status to collecting data after changing to calculating stats"),
           { c with status := some .CalculatingStats }, s)) ∧
    (getCount ns c s = .ok (n, c1) → n ≠ 0 →
      setStatus ns c s .CalculatingStats
        = (.ok (), c1, sset s (ns ++ STATUS_KEY) [STATUS_CALCULATING_STATS])) := by
  refine ⟨fun h => ?_, fun hc hs => ?_, fun h hn => ?_⟩
  · unfold setStatus
    rw [h]
    simp
  · unfold setStatus getStatus
    rw [hc, hs]
    simp [STATUS_COLLECTING_DATA, STATUS_CALCULATING_STATS]
  · unfold setStatus
    rw [h]
    simp [hn]

/-- C9 witness: the amended behaviour at concrete inputs — empty dataset
rejection, `InvalidState` on a through-storage revert attempt, and an
accepted (re-)finalize with five observations. -/
theorem set_status_amended_behaviour_witness :
    setStatus [] emptyCache [] .CalculatingStats
      = (.error (.std "No data in running stats store"),
         { emptyCache with count := some 0 }, []) ∧
    setStatus [] emptyCache countFiveCalculating .CollectingData
      = (.error
          (.std "Cannot set status to collecting data after changing to calculating stats"),
         { emptyCache with status := some .CalculatingStats }, countFiveCalculating) ∧
    setStatus [] emptyCache countFiveCollecting .CalculatingStats
      = (.ok (), { emptyCache with count := some 5 },
         sset countFiveCollecting STATUS_KEY [STATUS_CALCULATING_STATS]) :=
  ⟨(set_status_amended_behaviour [] emptyCache [] 0 { emptyCache with count := some 0 }).1 rfl,
   (set_status_amended_behaviour [] emptyCache countFiveCalculating 0 emptyCache).2.1 rfl rfl,
   (set_status_amended_behaviour [] emptyCache countFiveCollecting 5
      { emptyCache with count := some 5 }).2.2 rfl (by decide)⟩

/-! ### C8 -/

/-- C8 counterexample: a draw of exactly 0 makes the uniform value 0, `ln`
is undefined there, and the unwrap in `laplace` panics (`none`) — the call
does not return a fixed-point value, even for the positive scale 1. -/
theorem laplace_zero_draw_traps :
    (laplace lnModel rngZero i32f32One).1 = none ∧ (0 : Int) < i32f32One :=
  ⟨rfl, by decide⟩

/-- C8 (amended): for every positive scale and every random stream whose
two consumed 32-bit draws are nonzero, `laplace` returns a fixed-point
value without panicking, for any `ln` defined on all positive inputs (a
draw of `u32::MAX`, i.e. a uniform value of exactly 1, is tolerated); a
draw of exactly 0 panics in the logarithm step. -/
theorem laplace_total_on_nonzero_draws (lnf : Int → Option Int) (r : Rng) (scale : Int)
    (hscale : 0 < scale) (hlnf : ∀ x, 0 < x → (lnf x).isSome)
    (h1 : r.f r.i % 2 ^ 32 ≠ 0) (h2 : r.f (r.i + 1) % 2 ^ 32 ≠ 0) :
    ((laplace lnf r scale).1).isSome = true := by
  have key : ∀ m : Nat, m ≠ 0 → (lnf ((ruiQ m / 2 ^ 32 : Nat) : Int)).isSome := by
    intro m hm
    apply hlnf
    have h32 : 2 ^ 32 ≤ ruiQ m := ruiQ_ge_two32 m (by omega)
    have : 1 ≤ ruiQ m / 2 ^ 32 := (Nat.one_le_div_iff (by positivity)).mpr h32
    exact_mod_cast Nat.lt_of_lt_of_le Nat.zero_lt_one this
  obtain ⟨v, hv⟩ := laplace_some lnf r scale (key _ h1) (key _ h2)
  rw [hv]
  rfl

/-- C8 witness: with both draws equal to 1 and the modelled `ln`, `laplace`
at scale 1 returns a value. -/
theorem laplace_total_on_nonzero_draws_witness :
    ((laplace lnModel rngOnes i32f32One).1).isSome = true :=
  laplace_total_on_nonzero_draws lnModel rngOnes i32f32One (by decide)
    (fun x hx => by simp only [lnModel, if_neg (not_le.mpr hx)]; rfl)
    (by decide) (by decide)

/-! ### C5 -/

/-- Under the preconditions of a single `dp_count` (status
`CalculatingStats`, nonzero representable count, nonzero epsilon, budget at
least epsilon, `ln` defined everywhere) the call succeeds, for any draw
stream, returning only the value and consuming two draws. -/
theorem dp_count_ok (lnf : Int → Option Int) (s : RunningStats) (r : Rng)
    (hst : s.status = DP_CALCULATING_STATS) (hc : s.count ≠ 0) (hc31 : s.count < 2 ^ 31)
    (he : s.epsilon ≠ 0) (hb : ¬s.privacy_budget < s.epsilon)
    (hlnf : ∀ x, (lnf x).isSome) :
    ∃ v, RunningStats.dp_count lnf s r = (.ok v, { f := r.f, i := r.i + 1 + 1 }) := by
  unfold RunningStats.dp_count dpCountFull div64 i32OfU32
  rw [hst, if_neg (by simp), if_neg hc, if_neg hb, if_neg he]
  dsimp only
  obtain ⟨v, hv⟩ := laplace_some lnf r (wrap64 (Int.tdiv (2 ^ 32 * 2 ^ 32) s.epsilon))
    (hlnf _) (hlnf _)
  rw [hv, if_pos hc31]
  exact ⟨_, rfl⟩

/-- The caller-side iteration `for _ in 0..n { s.clone().dp_count(rng) }`:
the same `RunningStats` value is passed (by value) to each call, only the
draw stream advances. -/
def dpCountIter (lnf : Int → Option Int) (s : RunningStats) :
    Nat → Rng → List (Except Err Int)
  | 0, _ => []
  | n + 1, r =>
    let p := RunningStats.dp_count lnf s r
    p.1 :: dpCountIter lnf s n p.2

/-- C5: stats.rs `RunningStats::add_observation`, `dp_count` and
`dp_average` take `mut self` by value and return only a result, so the
debit `privacy_budget - epsilon` inside `dp_count` lands on the consumed
copy (dropped by `RunningStats.dp_count`), no caller-observable budget ever
decreases, and any number of repeated `dp_count` calls on (clones of) the
same value all succeed although the budget only covers one. -/
theorem dp_count_by_value_repeats_succeed (lnf : Int → Option Int) (s : RunningStats)
    (hst : s.status = DP_CALCULATING_STATS) (hc : s.count ≠ 0) (hc31 : s.count < 2 ^ 31)
    (he : s.epsilon ≠ 0) (hb : ¬s.privacy_budget < s.epsilon)
    (hlnf : ∀ x, (lnf x).isSome) (n : Nat) (r : Rng) :
    (dpCountIter lnf s n r).length = n ∧ (dpCountIter lnf s n r).all exceptIsOk = true := by
  induction n generalizing r with
  | zero => exact ⟨rfl, rfl⟩
  | succ n ih =>
    obtain ⟨v, hv⟩ := dp_count_ok lnf s r hst hc hc31 he hb hlnf
    unfold dpCountIter
    rw [hv]
    refine ⟨by simp [(ih _).1], ?_⟩
    simp only [List.all_cons, (ih _).2, exceptIsOk, Bool.and_true]

/-- A finalized one-observation `RunningStats` whose budget covers exactly
one COUNT query. -/
def sStar : RunningStats :=
  { count := 1, sum := 0, upper_bound := 0, lower_bound := 0, epsilon := i32f32One,
    sensitivity_for_average := none, privacy_budget := i32f32One,
    status := DP_CALCULATING_STATS }

/-- C5 witness: three repeated `dp_count` calls on the same value, whose
budget equals a single epsilon, all succeed. -/
theorem dp_count_by_value_repeats_succeed_witness :
    (dpCountIter lnf0 sStar 3 rngOnes).length = 3 ∧
    (dpCountIter lnf0 sStar 3 rngOnes).all exceptIsOk = true :=
  dp_count_by_value_repeats_succeed lnf0 sStar rfl (by decide) (by decide) (by decide)
    (by decide) (fun _ => rfl) 3 rngOnes

/-! ### C1 -/

/-- C1: any failure of `RunningStatsStore::fuzzy_average` — in particular
the trap raised when the noisy count used as divisor is zero or the
quotient is unrepresentable — is reported as an error value with the
persisted storage (privacy budget included) exactly as before the call;
on success the only key written is the privacy budget, i.e. the debit of
`2 * epsilon` is applied only after the result value has been computed. -/
theorem fuzzyAverage_storage_shape (lnf : Int → Option Int) (ns : Bytes) (c : Cache)
    (s : KVStorage) (r : Rng) :
    (fuzzyAverage lnf ns c s r).2.2.1 = s ∨
    (∃ b, (fuzzyAverage lnf ns c s r).2.2.1 = setPrivacyBudget ns s b ∧
      ∃ v, (fuzzyAverage lnf ns c s r).1 = .ok v) := by
  unfold fuzzyAverage
  dsimp only
  repeat' split
  all_goals first
    | exact Or.inl rfl
    | exact Or.inr ⟨_, rfl, _, rfl⟩

/-- C1: any failure of `RunningStatsStore::fuzzy_average` — in particular
the trap raised when the noisy count used as divisor is zero or the
quotient is unrepresentable — is reported as an error value with the
persisted storage (privacy budget included) exactly as before the call;
on success the only key written is the privacy budget, i.e. the debit of
`2 * epsilon` is applied only after the result value has been computed. -/
theorem fuzzy_average_failure_frame (lnf : Int → Option Int) (ns : Bytes) (c : Cache)
    (s : KVStorage) (r : Rng) :
    (∀ e, (fuzzyAverage lnf ns c s r).1 = .error e →
      (fuzzyAverage lnf ns c s r).2.2.1 = s) ∧
    (∀ v k, (fuzzyAverage lnf ns c s r).1 = .ok v → k ≠ ns ++ PRIVACY_BUDGET_KEY →
      sget (fuzzyAverage lnf ns c s r).2.2.1 k = sget s k) := by
  rcases fuzzyAverage_storage_shape lnf ns c s r with h | ⟨b, hset, v0, hok⟩
  · refine ⟨fun e _ => h, fun v k hv hk => ?_⟩
    rw [h]
  · constructor
    · intro e he
      rw [hok] at he
      exact absurd he (by simp)
    · intro v k hv hk
      rw [hset]
      exact sget_sset_ne s (ns ++ PRIVACY_BUDGET_KEY) k _ hk

/-- Draw stream 1, 1, u32::MAX, 1: the sum-noise draws cancel and the
count-noise comes out as exactly -1 under `lnfW`. -/
def rngC1 : Rng := ⟨fun i => if i = 2 then 4294967295 else 1, 0⟩

/-- Storage of a finalized session with one observation and budget 2 (so
the `2 * epsilon` check passes with the default epsilon 1). -/
def avgTrapStorage : KVStorage :=
  [(STATUS_KEY, [1]), (COUNT_KEY, beBytes 4 1), (PRIVACY_BUDGET_KEY, encFixed 8 (2 * i32f32One))]

/-- C1 witness: a concrete run in which the noisy count is exactly 0, the
division traps, and the call leaves the storage — privacy budget included —
exactly as it was. -/
theorem fuzzy_average_failure_frame_witness :
    (fuzzyAverage lnfW [] emptyCache avgTrapStorage rngC1).2.2.1 = avgTrapStorage :=
  (fuzzy_average_failure_frame lnfW [] emptyCache avgTrapStorage rngC1).1 .trap rfl
